import Mathlib

/-!
Shallow embedding of the credential lifecycle and rotation engine of the
repository (checkcredentials.py, security.py, security/modules/credentials.py,
security/modules/utils.py).  Python strings are modelled as `List Char`,
machine integers as `Nat`/`Int`, file contents as `Option (List Char)`
(`none` means the file does not exist), and external effects (the breach
lookup network call, the secure random generator, file-system faults) as
explicit oracle parameters.  Fallible steps are modelled with `Except`.
-/

/-- A substring occurrence: `hay` contains `nd` as a contiguous run
(`hay = s ++ nd ++ t` for some `s`, `t`).  This is the specification-side
notion of "the string X occurs in Y". -/
def containsSub (hay nd : List Char) : Prop :=
  ∃ s t, hay = s ++ nd ++ t

theorem countP_le_of_containsSub (p : Char → Bool) {hay nd : List Char}
    (h : containsSub hay nd) : nd.countP p ≤ hay.countP p := by
  obtain ⟨s, t, rfl⟩ := h
  simp [List.countP_append]
  omega

theorem eq_of_containsSub_of_length {hay nd : List Char}
    (h : containsSub hay nd) (hlen : hay.length = nd.length) : hay = nd := by
  obtain ⟨s, t, rfl⟩ := h
  simp only [List.length_append] at hlen
  have hs : s = [] := List.eq_nil_of_length_eq_zero (by omega)
  have ht : t = [] := List.eq_nil_of_length_eq_zero (by omega)
  simp [hs, ht]

/-- Literal substring search, used to model Python `re.search` applied to a
pattern with no metacharacters (and the `in` test on strings). -/
def hasSubstr (nd : List Char) : List Char → Bool
  | [] => nd.isEmpty
  | c :: rest => nd.isPrefixOf (c :: rest) || hasSubstr nd rest

/-- Three identical consecutive characters, modelling the regex
`(.)\1{2,}` of checkcredentials.py line 257. -/
def hasTripleRepeat : List Char → Bool
  | a :: b :: c :: rest => (a == b && b == c) || hasTripleRepeat (b :: c :: rest)
  | _ => false

namespace CheckCredentials

/-- checkcredentials.py lines 72-78: the PASSWORD_STRENGTH_RULES dict. -/
structure StrengthRules where
  length : Nat
  uppercase : Nat
  lowercase : Nat
  digits : Nat
  special_chars : Nat

def PASSWORD_STRENGTH_RULES : StrengthRules :=
  { length := 12, uppercase := 1, lowercase := 1, digits := 1, special_chars := 1 }

/-- checkcredentials.py line 226: the special-character set. -/
def specialChars : List Char := "!@#$%^&*()_+-=[]\x7b\x7d|;:,.<>?/~`".toList

/-- checkcredentials.py lines 235-242: common weak patterns. -/
def commonPatterns : List (List Char) :=
  ["password".toList, "123456".toList, "qwerty".toList,
   "admin".toList, "welcome".toList, "letmein".toList]

/-- checkcredentials.py line 251: the alternation of ascending three-character
runs tested by the sequential-characters regex. -/
def sequentialTriples : List (List Char) :=
  ["abc".toList, "bcd".toList, "cde".toList, "def".toList, "efg".toList,
   "fgh".toList, "ghi".toList, "hij".toList, "ijk".toList, "jkl".toList,
   "klm".toList, "lmn".toList, "mno".toList, "nop".toList, "opq".toList,
   "pqr".toList, "qrs".toList, "rst".toList, "stu".toList, "tuv".toList,
   "uvw".toList, "vwx".toList, "wxy".toList, "xyz".toList,
   "012".toList, "123".toList, "234".toList, "345".toList, "456".toList,
   "567".toList, "678".toList, "789".toList]

/-- The result dict built by validate_credential_strength. -/
structure StrengthResult where
  valid : Bool
  score : Int
  issues : List (List Char)
  strengths : List (List Char)
deriving DecidableEq

/-- checkcredentials.py lines 169-265: validate_credential_strength.
Each block of the Python function is translated in order; the running
result dict is threaded through `r0`..`r8` and the score is clamped to
[0, 100] at the end exactly as in line 263. -/
def validate_credential_strength (credential credential_type : List Char) :
    StrengthResult :=
  -- lines 187-191: skip validation for temporary credential types
  if credential_type = "SESSION_TOKEN".toList ∨ credential_type = "TEMP_TOKEN".toList then
    { valid := true, score := 100, issues := [],
      strengths := ["Temporary credential".toList] }
  else
    let r0 : StrengthResult := { valid := true, score := 0, issues := [], strengths := [] }
    -- lines 193-199: length
    let r1 :=
      if credential.length < PASSWORD_STRENGTH_RULES.length then
        { r0 with
          valid := false,
          issues := r0.issues ++ ["Length should be at least 12 characters".toList] }
      else
        { r0 with
          strengths := r0.strengths ++ ["Sufficient length".toList],
          score := r0.score + 25 }
    -- lines 201-207: uppercase
    let r2 :=
      if credential.countP (fun c => c.isUpper) < PASSWORD_STRENGTH_RULES.uppercase then
        { r1 with
          valid := false,
          issues := r1.issues ++ ["Should contain at least one uppercase letter".toList] }
      else
        { r1 with
          strengths := r1.strengths ++ ["Contains uppercase letters".toList],
          score := r1.score + 15 }
    -- lines 209-215: lowercase
    let r3 :=
      if credential.countP (fun c => c.isLower) < PASSWORD_STRENGTH_RULES.lowercase then
        { r2 with
          valid := false,
          issues := r2.issues ++ ["Should contain at least one lowercase letter".toList] }
      else
        { r2 with
          strengths := r2.strengths ++ ["Contains lowercase letters".toList],
          score := r2.score + 15 }
    -- lines 217-223: digits
    let r4 :=
      if credential.countP (fun c => c.isDigit) < PASSWORD_STRENGTH_RULES.digits then
        { r3 with
          valid := false,
          issues := r3.issues ++ ["Should contain at least one digit".toList] }
      else
        { r3 with
          strengths := r3.strengths ++ ["Contains digits".toList],
          score := r3.score + 20 }
    -- lines 225-232: special characters
    let r5 :=
      if credential.countP (fun c => specialChars.contains c) < PASSWORD_STRENGTH_RULES.special_chars then
        { r4 with
          valid := false,
          issues := r4.issues ++ ["Should contain at least one special character".toList] }
      else
        { r4 with
          strengths := r4.strengths ++ ["Contains special characters".toList],
          score := r4.score + 25 }
    let lowered := credential.map Char.toLower
    -- lines 244-248: one penalty per matching common pattern
    let r6 := commonPatterns.foldl
      (fun r pat =>
        if hasSubstr pat lowered then
          { r with
            valid := false,
            issues := r.issues ++ ("Contains common pattern: ".toList ++ pat) :: [],
            score := r.score - 20 }
        else r) r5
    -- lines 250-254: sequential characters (re.search fires at most once)
    let r7 :=
      if sequentialTriples.any (fun t => hasSubstr t lowered) then
        { r6 with
          valid := false,
          issues := r6.issues ++ ["Contains sequential characters".toList],
          score := r6.score - 10 }
      else r6
    -- lines 256-260: repeated characters
    let r8 :=
      if hasTripleRepeat credential then
        { r7 with
          valid := false,
          issues := r7.issues ++ ["Contains repeated characters".toList],
          score := r7.score - 10 }
      else r7
    -- line 263: clamp to [0, 100]
    { r8 with score := max 0 (min 100 r8.score) }

end CheckCredentials

namespace CheckCredentials

/-- Outcome of the `requests.get` call in check_haveibeenpwned: either an
exception (network error / timeout), or an HTTP response with a status code
and the parsed `SUFFIX:COUNT` lines of the body. -/
inductive NetResult where
  | err : NetResult
  | resp : Nat → List (List Char × Nat) → NetResult

/-- checkcredentials.py line 81: the range-lookup endpoint. -/
def HAVEIBEENPWNED_API : List Char := "https://api.pwnedpasswords.com/range/".toList

/-- checkcredentials.py lines 150-156: the digest is uppercased, its first
five characters form the query, and the request URL is the endpoint followed
by exactly that five-character piece.  `sha1hex` stands for the external
`hashlib.sha1(...).hexdigest()` primitive (a 40-character lowercase-hex
string). -/
def requestUrl (sha1hex : List Char → List Char) (password : List Char) : List Char :=
  HAVEIBEENPWNED_API ++ ((sha1hex password).map Char.toUpper).take 5

/-- checkcredentials.py lines 138-167: check_haveibeenpwned.  The network is
an oracle mapping the request URL to a `NetResult`.  On any exception the
function logs a warning and falls through to `return 0`; on a 200 response it
returns the count of the first line whose suffix matches, else 0. -/
def check_haveibeenpwned (sha1hex : List Char → List Char)
    (net : List Char → NetResult) (password : List Char) : Nat :=
  let password_hash := (sha1hex password).map Char.toUpper
  let hash_suffix := password_hash.drop 5
  match net (requestUrl sha1hex password) with
  | .err => 0
  | .resp status lines =>
    if status = 200 then
      match lines.find? (fun ln => ln.1 == hash_suffix) with
      | some ln => ln.2
      | none => 0
    else 0

end CheckCredentials

namespace SecurityUtils

/-- security/modules/utils.py lines 38-55: mask_credential.  An empty
credential gives the empty string; for length at most 8 the first and last
characters are kept around a run of asterisks of length `len - 2` (Python
string repetition with a negative count yields the empty string, matched by
truncated `Nat` subtraction); for longer inputs the first four and last four
characters are kept. -/
def mask_credential (credential : List Char) : List Char :=
  if credential = [] then []
  else if credential.length ≤ 8 then
    credential.take 1 ++ List.replicate (credential.length - 2) '*'
      ++ credential.drop (credential.length - 1)
  else
    credential.take 4 ++ List.replicate (credential.length - 8) '*'
      ++ credential.drop (credential.length - 4)

end SecurityUtils

namespace CheckCredentials

/-- checkcredentials.py lines 99-100: the sensitive argument names checked by
the audit_log decorator.  The membership test `k in [...]` is an exact,
case-sensitive string comparison. -/
def sensitiveKeys : List (List Char) :=
  ["credential".toList, "password".toList, "token".toList, "key".toList]

/-- checkcredentials.py lines 99-100: the dict comprehension building the
"arguments" field of the audit record: a sensitive name maps to "REDACTED",
every other keyword argument keeps its value. -/
def redactArguments (kwargs : List (List Char × List Char)) :
    List (List Char × List Char) :=
  kwargs.map fun kv =>
    if kv.1 ∈ sensitiveKeys then (kv.1, "REDACTED".toList) else kv

/-- The serialized form of the "arguments" object inside the JSON audit
entry written by audit_log (line 133, json.dump): each key/value pair is
rendered as a quoted key, a colon and the quoted value. -/
def serializeArguments (args : List (List Char × List Char)) : List Char :=
  (args.map fun kv =>
    "\"".toList ++ kv.1 ++ "\": \"".toList ++ kv.2 ++ "\"".toList).flatten

end CheckCredentials

namespace CheckCredentials

/-- The severity buckets of generate_report (checkcredentials.py 292-305). -/
inductive Tier where
  | critical
  | high
  | medium
  | low
deriving DecidableEq

/-- checkcredentials.py lines 297-305: the bucket generate_report places a
warning in, from its days_remaining value. -/
def reportBucket (days_remaining : Int) : Tier :=
  if days_remaining ≤ 1 then .critical
  else if days_remaining ≤ 7 then .high
  else if days_remaining ≤ 30 then .medium
  else .low

/-- checkcredentials.py lines 513-516 combined with 297-305: main() only
passes warnings with days_remaining ≤ 90 to generate_report, so the overall
classification yields a bucket for days_remaining ≤ 90 and omits the
credential otherwise. -/
def expirationClassification (days_remaining : Int) : Option Tier :=
  if days_remaining ≤ 90 then some (reportBucket days_remaining) else none

end CheckCredentials

namespace SpecModel

/-- The severity tiers of the table in spec section 4.2. -/
inductive SpecTier where
  | expired
  | critical
  | high
  | medium
  | low
deriving DecidableEq

/-- Modelled from the spec (section 4.2 table, priority order, first match
wins): days_remaining ≤ 0 is the expired row, ≤ 1 critical, ≤ 7 high,
≤ 30 medium, ≤ 90 low, and anything else is omitted from the result. -/
def specTable (days_remaining : Int) : Option SpecTier :=
  if days_remaining ≤ 0 then some .expired
  else if days_remaining ≤ 1 then some .critical
  else if days_remaining ≤ 7 then some .high
  else if days_remaining ≤ 30 then some .medium
  else if days_remaining ≤ 90 then some .low
  else none

/-- The spec's own footnote on the expired row: it is "treated as
days_remaining ≤ 1 severity bucket critical downstream". -/
def collapseExpired : SpecTier → CheckCredentials.Tier
  | .expired => .critical
  | .critical => .critical
  | .high => .high
  | .medium => .medium
  | .low => .low

end SpecModel

namespace SecurityModules

/-- The severity values produced by check_credential_expiration in
security/modules/credentials.py (lines 370-385). -/
inductive ModSeverity where
  | critical
  | high
  | medium
deriving DecidableEq

/-- security/modules/credentials.py lines 363-385: the classification of a
single credential with an expiration date.  days ≤ 0 reports status
"expired" with severity critical; 0 < days ≤ 7 reports "expiring_soon" with
severity high when days ≤ 3 and medium otherwise; nothing is reported
beyond 7 days. -/
def expirationReport (days_remaining : Int) : Option (List Char × ModSeverity) :=
  if days_remaining ≤ 0 then some ("expired".toList, .critical)
  else if days_remaining ≤ 7 then
    some ("expiring_soon".toList, if days_remaining ≤ 3 then .high else .medium)
  else none

end SecurityModules

namespace CheckCredentials

/-- Outcome of one file write: either it succeeds, or it raises leaving the
target path with `junk` content (`none` = the path was not created,
`some l` = a truncated/partial file). -/
structure WriteFault where
  ok : Bool
  junk : Option (List Char)
deriving DecidableEq

/-- Fault injection for the file operations of update_environment_file, in
program order: the read of the live .env file, the backup write, the live
write, and the read/write pair of the restore path. -/
structure FsFaults where
  readMain : Bool
  writeBackup : WriteFault
  writeMain : WriteFault
  readBackup : Bool
  writeRestore : WriteFault
deriving DecidableEq

/-- The two files touched by update_environment_file: the live .env store
and the timestamped backup written by this call (`none` = absent). -/
structure EnvFS where
  main : Option (List Char)
  backup : Option (List Char)
deriving DecidableEq

/-- checkcredentials.py lines 405-407: `re.sub(rf'^{cred_type}=.*$', ...)`
with re.MULTILINE replaces every line that starts with `cred_type=` by
`cred_type=value`; `.` does not cross a newline, so the effect is
line-by-line. -/
def substLine (cred_type value line : List Char) : List Char :=
  if (cred_type ++ "=".toList).isPrefixOf line then cred_type ++ "=".toList ++ value
  else line

def substCredential (cred_type value content : List Char) : List Char :=
  List.intercalate ['\n'] ((content.splitOn '\n').map (substLine cred_type value))

/-- checkcredentials.py lines 375-388: the validation loop run before any
file is touched.  Returns true when every rotated credential passes
validate_credential_strength and every *PASSWORD credential has a zero
breach count, i.e. when the function goes on to the file update. -/
def credsPass (sha1hex : List Char → List Char) (net : List Char → NetResult) :
    List (List Char × List Char) → Bool
  | [] => true
  | (cred_type, value) :: rest =>
    if ¬(validate_credential_strength value cred_type).valid then false
    else if "PASSWORD".toList.isSuffixOf cred_type ∧
        0 < check_haveibeenpwned sha1hex net value then false
    else credsPass sha1hex net rest

/-- checkcredentials.py lines 425-436: the except-branch restore.  If the
backup file exists, its content is read back and written over the live
store; a failure in either step leaves the live store as it was when the
exception fired. -/
def restoreFromBackup (f : FsFaults) (mainNow backupNow : Option (List Char)) : EnvFS :=
  match backupNow with
  | none => { main := mainNow, backup := none }
  | some b =>
    if f.readBackup then
      if f.writeRestore.ok then { main := some b, backup := some b }
      else { main := f.writeRestore.junk, backup := some b }
    else { main := mainNow, backup := some b }

/-- checkcredentials.py lines 363-436: update_environment_file.  The input
is the content of the live store (the timestamped backup path of this call
does not exist yet); the output is the state of both files when the call
returns.  All police checks happen before the try block; inside it, the
backup is written from the current content, the per-credential substitution
is applied, and the live write either succeeds or triggers the restore
path. -/
def update_environment_file (sha1hex : List Char → List Char)
    (net : List Char → NetResult) (f : FsFaults)
    (rotated_credentials : List (List Char × List Char))
    (main0 : Option (List Char)) : EnvFS :=
  -- lines 366-368: nothing to update
  if rotated_credentials.isEmpty then { main := main0, backup := none }
  -- lines 375-388: validation / breach gate, returns before any write
  else if ¬ credsPass sha1hex net rotated_credentials then { main := main0, backup := none }
  else
    match main0 with
    -- lines 414-416: missing live store, log and return
    | none => { main := none, backup := none }
    | some env0 =>
      -- line 393: read raises; the except branch finds no backup to restore
      if ¬ f.readMain then { main := some env0, backup := none }
      -- lines 396-398: backup write; on failure the except branch restores
      -- the live store from whatever the failed write left behind
      else if ¬ f.writeBackup.ok then restoreFromBackup f (some env0) f.writeBackup.junk
      else
        -- lines 402-407: apply the substitutions for each credential
        let env1 := rotated_credentials.foldl
          (fun acc tv => substCredential tv.1 tv.2 acc) env0
        -- lines 409-411: live write
        if f.writeMain.ok then { main := some env1, backup := some env0 }
        else restoreFromBackup f f.writeMain.junk (some env0)

end CheckCredentials

/-- Python exceptions raised in the rotation pipeline. -/
inductive PyError where
  | typeError
  | attributeError
deriving DecidableEq

def pyErrorMessage : PyError → List Char
  | .typeError =>
    "rotate_credential() missing 1 required positional argument: request_id".toList
  | .attributeError => "str object has no attribute get".toList

/-- The Python value returned through the delegate boundary: the security
module's rotate_credential returns a plain str, while checkcredentials.py
expects a dict and supplies bool/str defaults. -/
inductive PyVal where
  | str : List Char → PyVal
  | bool : Bool → PyVal
deriving DecidableEq

/-- Python semantics of `x.get(key, default)`: only dict objects have a
`get` attribute; on the str (or bool) values that actually flow here it
raises AttributeError. -/
def pyDictGet (v : PyVal) (_key : List Char) (_dflt : PyVal) : Except PyError PyVal :=
  match v with
  | .str _ => .error .attributeError
  | .bool _ => .error .attributeError

/-- Python call semantics for `security.rotate_credential`: the function
re-exported by security/__init__.py line 38 is
security/modules/credentials.py line 389,
`rotate_credential(credential_type: str, request_id: str)`.  Binding the
positional arguments of a call against that signature succeeds only when
exactly two are supplied; any other arity raises TypeError before the body
runs.  (The monolithic security.py line 1393 has the same two-parameter
signature, so the arity check does not depend on which module wins the
import.) -/
def bindRotateCredentialArgs (positional : List (List Char)) :
    Except PyError (List Char × List Char) :=
  match positional with
  | [credential_type, request_id] => .ok (credential_type, request_id)
  | _ => .error .typeError

namespace SecurityModules

/-- The per-type credential metadata record.  Fields follow the keys used by
the repository's metadata dicts (security.py lines 1444-1449); the modular
rotate_credential only ever sets `expiration` and `lastRotated`. -/
structure CredRecord where
  created : Int
  lastRotated : Int
  expiration : Int
  rotations : Nat
  maskedValue : List Char
deriving DecidableEq

def emptyRecord : CredRecord :=
  { created := 0, lastRotated := 0, expiration := 0, rotations := 0, maskedValue := [] }

/-- security/modules/credentials.py lines 400-409: generation length and
complexity per credential type. -/
def rotationParams (credential_type : List Char) : Nat × List Char :=
  if credential_type = "db_password".toList then (16, "high".toList)
  else if credential_type = "api_key".toList then (32, "medium".toList)
  else (24, "medium".toList)

/-- security/modules/credentials.py lines 389-430: rotate_credential.
`gen` models generate_secure_credential (a secrets-based random draw, an
oracle here); `now` models datetime.now() in days.  The function generates
the new value, then unconditionally persists metadata with a fresh
expiration (now + 90 days) and last-rotated stamp, and returns the new
credential string. -/
def rotate_credential (now : Int) (gen : Nat → List Char → List Char)
    (credential_type _request_id : List Char)
    (metadata : List (List Char × CredRecord)) :
    List (List Char × CredRecord) × List Char :=
  let p := rotationParams credential_type
  let new_credential := gen p.1 p.2
  let base := (metadata.lookup credential_type).getD emptyRecord
  let updated := { base with expiration := now + 90, lastRotated := now }
  let metadata' :=
    if (metadata.lookup credential_type).isSome then
      metadata.map (fun kv => if kv.1 = credential_type then (kv.1, updated) else kv)
    else metadata ++ [(credential_type, updated)]
  (metadata', new_credential)

end SecurityModules

namespace CheckCredentials

/-- The external effects feeding one rotation attempt. -/
structure Oracles where
  now : Int
  gen : Nat → List Char → List Char
  sha1hex : List Char → List Char
  net : List Char → NetResult
  faults : FsFaults

/-- The persistent state a rotation attempt can touch: the credential
metadata store and the environment-file pair. -/
structure Store where
  metadata : List (List Char × SecurityModules.CredRecord)
  env : EnvFS
deriving DecidableEq

/-- The dict returned by checkcredentials.rotate_credential, plus an
explicit record of whether the call reached update_environment_file. -/
structure RotationResult where
  success : Bool
  error : Option (List Char)
  reachedEnvUpdate : Bool
deriving DecidableEq

/-- checkcredentials.py lines 267-282: verify_two_factor is a stub that
always returns True. -/
def verify_two_factor (_credential_type _operation : List Char) : Bool := true

/-- checkcredentials.py lines 458-491: the body of the try block of
rotate_credential.  An `Except` error is an uncaught Python exception
carrying the state at the moment it fired; line 460 calls the delegate with
a single positional argument. -/
def rotateTry (o : Oracles) (credential_type : List Char) (st : Store) :
    Except (PyError × Store) (RotationResult × Store) :=
  match bindRotateCredentialArgs [credential_type] with
  | .error e => .error (e, st)
  | .ok bound =>
    let d := SecurityModules.rotate_credential o.now o.gen bound.1 bound.2 st.metadata
    let st1 : Store := { st with metadata := d.1 }
    let rotation_result : PyVal := .str d.2
    -- line 462: rotation_result.get("success", False)
    match pyDictGet rotation_result "success".toList (.bool false) with
    | .error e => .error (e, st1)
    | .ok sv =>
      if sv = .bool true then
        -- line 464: rotation_result.get("new_credential", "")
        match pyDictGet rotation_result "new_credential".toList (.str []) with
        | .error e => .error (e, st1)
        | .ok nv =>
          let new_credential := match nv with | .str s => s | .bool _ => []
          let validation := validate_credential_strength new_credential credential_type
          -- lines 467-474: strength gate for crucial types
          if ¬validation.valid ∧
              (credential_type = "DB_PASSWORD".toList ∨
               credential_type = "SECRET_TOKEN".toList) ∧
              validation.score < 70 then
            .ok ({ success := false,
                   error := some "Credential strength insufficient".toList,
                   reachedEnvUpdate := false }, st1)
          -- lines 477-481: breach gate for password-like types
          else if "PASSWORD".toList.isSuffixOf credential_type ∧
              0 < check_haveibeenpwned o.sha1hex o.net new_credential then
            .ok ({ success := false,
                   error := some "Credential found in breach database".toList,
                   reachedEnvUpdate := false }, st1)
          else
            -- line 484: update the environment file
            let env' := update_environment_file o.sha1hex o.net o.faults
              [(credential_type, new_credential)] st.env.main
            .ok ({ success := true, error := none, reachedEnvUpdate := true },
                 { st1 with env := env' })
      else
        -- lines 489-490: rotation_result.get("error", "Unknown error")
        match pyDictGet rotation_result "error".toList (.str "Unknown error".toList) with
        | .error e => .error (e, st1)
        | .ok ev =>
          .ok ({ success := false,
                 error := some (match ev with | .str s => s | .bool _ => []),
                 reachedEnvUpdate := false }, st1)

/-- checkcredentials.py lines 438-494: rotate_credential.  The 2FA gate of
lines 452-456 runs first (verify_two_factor is the always-true stub); the
try block is rotateTry and the except handler of lines 492-494 turns any
exception into a failure dict, keeping the state the exception left
behind. -/
def rotate_credential (o : Oracles) (credential_type : List Char)
    (skip_verification : Bool) (st : Store) : RotationResult × Store :=
  let body :=
    match rotateTry o credential_type st with
    | .ok rs => rs
    | .error es =>
      ({ success := false, error := some (pyErrorMessage es.1),
         reachedEnvUpdate := false }, es.2)
  if (credential_type = "API_KEY".toList ∨ credential_type = "DB_PASSWORD".toList ∨
      credential_type = "SECRET_TOKEN".toList) ∧ skip_verification = false then
    if verify_two_factor credential_type "rotation".toList = false then
      ({ success := false, error := some "2FA verification failed".toList,
         reachedEnvUpdate := false }, st)
    else body
  else body

end CheckCredentials

/-- The sixteen lowercase hexadecimal digits: the alphabet of the string
returned by the external hashlib `hexdigest()` primitive. -/
def hexLowerChars : List Char := "0123456789abcdef".toList

/-- The sixteen uppercase hexadecimal digits. -/
def hexUpperChars : List Char := "0123456789ABCDEF".toList

/-- A fixed stand-in for hashlib.sha1(...).hexdigest(), used to instantiate
the digest oracle at concrete inputs: it satisfies the hexdigest contract
(40 lowercase hex characters). -/
def sha1Stub : List Char → List Char := fun _ => List.replicate 40 'a'

/-- A network oracle on which every request raises (timeout / connection
error). -/
def netErrStub : List Char → CheckCredentials.NetResult := fun _ => .err

/-- A network oracle returning a successful 200 range response in which no
suffix matches: the verified-clean case. -/
def netCleanStub : List Char → CheckCredentials.NetResult := fun _ => .resp 200 []

/-- Fault-free file-system behaviour. -/
def noFaults : CheckCredentials.FsFaults :=
  { readMain := true, writeBackup := { ok := true, junk := none },
    writeMain := { ok := true, junk := none }, readBackup := true,
    writeRestore := { ok := true, junk := none } }

/-- A concrete oracle bundle for evaluating rotation attempts. -/
def oracleStub : CheckCredentials.Oracles :=
  { now := 0, gen := fun _ _ => [], sha1hex := sha1Stub, net := netErrStub,
    faults := noFaults }

/-- A concrete starting store. -/
def storeStub : CheckCredentials.Store :=
  { metadata := [], env := { main := some "API_KEY=old".toList, backup := none } }

/-! Theorems. -/

theorem toUpper_mem_hexUpper {ch : Char} (h : ch ∈ hexLowerChars) :
    Char.toUpper ch ∈ hexUpperChars := by
  fin_cases h <;> decide

/-- Claim C4, counterexample: on the candidate "Abcdef12!@" (length 10) and
the non-exempt type "API_KEY", validate_credential_strength returns
valid = false with score 65 — the length check fails against the configured
minimum of 12 and the sequential-run check fires on "abc" — not
valid = true with score 100 as the claim states. -/
theorem C4_counterexample :
    (CheckCredentials.validate_credential_strength "Abcdef12!@".toList "API_KEY".toList).valid
        = false ∧
    (CheckCredentials.validate_credential_strength "Abcdef12!@".toList "API_KEY".toList).score
        = 65 := by
  constructor
  · decide
  · decide

/-- Claim C4 (amended): for every credential type other than the exempt
SESSION_TOKEN / TEMP_TOKEN, validate_credential_strength on "Abcdef12!@"
returns valid = false and score = 65: the candidate earns the four
character-class bonuses (15 + 15 + 20 + 25) but misses the +25 length bonus
(10 < 12, marked invalid) and pays the −10 sequential-characters penalty
for the run "abc". -/
theorem C4_amended (credential_type : List Char)
    (h : ¬(credential_type = "SESSION_TOKEN".toList ∨
           credential_type = "TEMP_TOKEN".toList)) :
    (CheckCredentials.validate_credential_strength "Abcdef12!@".toList credential_type).valid
        = false ∧
    (CheckCredentials.validate_credential_strength "Abcdef12!@".toList credential_type).score
        = 65 := by
  unfold CheckCredentials.validate_credential_strength
  rw [if_neg h]
  constructor
  · decide
  · decide

theorem C4_amended_witness :
    ¬("API_KEY".toList = "SESSION_TOKEN".toList ∨
      "API_KEY".toList = "TEMP_TOKEN".toList) ∧
    ((CheckCredentials.validate_credential_strength "Abcdef12!@".toList "API_KEY".toList).valid
        = false ∧
     (CheckCredentials.validate_credential_strength "Abcdef12!@".toList "API_KEY".toList).score
        = 65) :=
  ⟨by decide, C4_amended "API_KEY".toList (by decide)⟩

/-- Claim C6, counterexample: the expiration classification of
security/modules/credentials.py (cited by the claim) assigns severity
"medium", not "high", to days_remaining = 7: its severity split inside the
seven-day window is high for ≤ 3 days and medium otherwise, contradicting
the claimed table (7 → high). -/
theorem C6_counterexample :
    (SecurityModules.expirationReport 7).map (fun r => r.2)
        = some SecurityModules.ModSeverity.medium ∧
    SecurityModules.ModSeverity.medium ≠ SecurityModules.ModSeverity.high := by
  constructor
  · decide
  · decide

/-- Claim C6 (amended): the classification actually performed by
checkcredentials.py — generate_report's buckets applied to the warnings
that main() keeps (days_remaining ≤ 90) — is a total function of
days_remaining (so exactly one tier per value) and agrees with the spec
section 4.2 table once the table's "expired" row is collapsed into the
critical bucket, as the table itself prescribes for downstream consumers;
in particular 1 → critical, 7 → high, 8 → medium.  The expiration monitors
in security.py and security/modules/credentials.py use different
thresholds and do not follow the table. -/
theorem C6_amended :
    (∀ d : Int, (SpecModel.specTable d).map SpecModel.collapseExpired
        = CheckCredentials.expirationClassification d) ∧
    CheckCredentials.expirationClassification 1 = some CheckCredentials.Tier.critical ∧
    CheckCredentials.expirationClassification 7 = some CheckCredentials.Tier.high ∧
    CheckCredentials.expirationClassification 8 = some CheckCredentials.Tier.medium := by
  refine ⟨?_, by decide, by decide, by decide⟩
  intro d
  unfold SpecModel.specTable CheckCredentials.expirationClassification
    CheckCredentials.reportBucket
  split_ifs <;> simp [SpecModel.collapseExpired] <;> omega

/-- Claim C9, counterexample: mask_credential (security/modules/utils.py) on
the two-character credential "ab" computes 'a' + '*' * 0 + 'b' = "ab" — the
masked form is the raw credential itself, so it contains the full raw
credential as a substring. -/
theorem C9_counterexample :
    containsSub (SecurityUtils.mask_credential "ab".toList) "ab".toList :=
  ⟨[], [], by decide⟩

/-- Claim C9 (amended): for every credential of length at least 2 whose
masked form differs from the credential at all (i.e. except when the middle
was already all asterisks, or the length is exactly 2 so that nothing is
masked), mask_credential has the same length as its input and never
contains the full raw credential as a substring; for a one-character
credential the mask is the character doubled, which does contain it. -/
theorem C9_amended (credential : List Char) (h2 : 2 ≤ credential.length)
    (hne : SecurityUtils.mask_credential credential ≠ credential) :
    (SecurityUtils.mask_credential credential).length = credential.length ∧
    ¬ containsSub (SecurityUtils.mask_credential credential) credential := by
  have hlen : (SecurityUtils.mask_credential credential).length = credential.length := by
    unfold SecurityUtils.mask_credential
    split_ifs with hnil hle
    · simp [hnil] at h2
    · simp only [List.length_append, List.length_take, List.length_replicate,
        List.length_drop]
      omega
    · simp only [List.length_append, List.length_take, List.length_replicate,
        List.length_drop]
      omega
  exact ⟨hlen, fun hc => hne (eq_of_containsSub_of_length hc hlen)⟩

theorem C9_amended_witness :
    2 ≤ "Abcdefgh".toList.length ∧
    SecurityUtils.mask_credential "Abcdefgh".toList ≠ "Abcdefgh".toList ∧
    ((SecurityUtils.mask_credential "Abcdefgh".toList).length
        = "Abcdefgh".toList.length ∧
     ¬ containsSub (SecurityUtils.mask_credential "Abcdefgh".toList) "Abcdefgh".toList) :=
  ⟨by decide, by decide, C9_amended "Abcdefgh".toList (by decide) (by decide)⟩

/-- Claim C8, counterexample: the audit_log redaction tests argument names
with a case-sensitive membership check, so a keyword argument named
"Password" is not matched: its value is recorded verbatim and the
serialized arguments of the audit entry contain the literal secret
"Sup3r$ecret". -/
theorem C8_counterexample :
    containsSub
      (CheckCredentials.serializeArguments
        (CheckCredentials.redactArguments [("Password".toList, "Sup3r$ecret".toList)]))
      "Sup3r$ecret".toList :=
  ⟨"\"Password\": \"".toList, "\"".toList, by decide⟩

/-- Claim C8 (amended): the redaction matches the names credential,
password, token, key exactly and case-sensitively; every argument recorded
under one of those names carries the fixed marker "REDACTED" instead of its
value, and in particular the serialized arguments of an audit entry for a
call with password="Sup3r$ecret" never contain the literal secret. -/
theorem C8_amended (kwargs : List (List Char × List Char)) (k v : List Char)
    (hmem : (k, v) ∈ CheckCredentials.redactArguments kwargs)
    (hk : k ∈ CheckCredentials.sensitiveKeys) :
    v = "REDACTED".toList ∧
    ¬ containsSub
        (CheckCredentials.serializeArguments
          (CheckCredentials.redactArguments
            [("password".toList, "Sup3r$ecret".toList)]))
        "Sup3r$ecret".toList := by
  constructor
  · unfold CheckCredentials.redactArguments at hmem
    rw [List.mem_map] at hmem
    obtain ⟨kv, hkv, heq⟩ := hmem
    by_cases hs : kv.1 ∈ CheckCredentials.sensitiveKeys
    · rw [if_pos hs] at heq
      exact ((Prod.mk.injEq _ _ _ _).mp heq).2.symm
    · rw [if_neg hs] at heq
      subst heq
      exact absurd hk hs
  · intro hc
    have hle := countP_le_of_containsSub (fun c => c == '$') hc
    have h1 : List.countP (fun c => c == '$') "Sup3r$ecret".toList = 1 := by decide
    have h2 : List.countP (fun c => c == '$')
        (CheckCredentials.serializeArguments
          (CheckCredentials.redactArguments
            [("password".toList, "Sup3r$ecret".toList)])) = 0 := by decide
    omega

theorem C8_amended_witness :
    ("password".toList, "REDACTED".toList) ∈
        CheckCredentials.redactArguments
          [("password".toList, "Sup3r$ecret".toList)] ∧
    "password".toList ∈ CheckCredentials.sensitiveKeys ∧
    ("REDACTED".toList = "REDACTED".toList ∧
     ¬ containsSub
         (CheckCredentials.serializeArguments
           (CheckCredentials.redactArguments
             [("password".toList, "Sup3r$ecret".toList)]))
         "Sup3r$ecret".toList) :=
  ⟨by decide, by decide,
   C8_amended [("password".toList, "Sup3r$ecret".toList)] "password".toList
     "REDACTED".toList (by decide) (by decide)⟩

/-- Claim C5, counterexample: check_haveibeenpwned returns the bare integer
0 on a network error — exactly the value it returns for a verified-clean
lookup (a 200 response with no matching suffix).  There is no checked flag
in the return value, so a caller cannot distinguish "could not verify"
from "verified clean", contrary to the claim. -/
theorem C5_counterexample :
    CheckCredentials.check_haveibeenpwned sha1Stub netErrStub "hunter2".toList
      = CheckCredentials.check_haveibeenpwned sha1Stub netCleanStub "hunter2".toList := by
  decide

/-- Claim C5 (amended): if the breach-lookup request raises (network error
or timeout), check_haveibeenpwned returns 0 — a failed lookup is never
reported as breached — but the value is the plain int 0, identical to the
result of a verified-clean lookup; the function exposes no checked flag,
so the two cases are indistinguishable to the caller. -/
theorem C5_amended (sha1hex : List Char → List Char)
    (net netOk : List Char → CheckCredentials.NetResult) (password : List Char)
    (herr : net (CheckCredentials.requestUrl sha1hex password)
        = CheckCredentials.NetResult.err)
    (hclean : netOk (CheckCredentials.requestUrl sha1hex password)
        = CheckCredentials.NetResult.resp 200 []) :
    CheckCredentials.check_haveibeenpwned sha1hex net password = 0 ∧
    CheckCredentials.check_haveibeenpwned sha1hex netOk password
      = CheckCredentials.check_haveibeenpwned sha1hex net password := by
  unfold CheckCredentials.check_haveibeenpwned
  rw [herr, hclean]
  exact ⟨rfl, rfl⟩

theorem C5_amended_witness :
    netErrStub (CheckCredentials.requestUrl sha1Stub "hunter2".toList)
        = CheckCredentials.NetResult.err ∧
    netCleanStub (CheckCredentials.requestUrl sha1Stub "hunter2".toList)
        = CheckCredentials.NetResult.resp 200 [] ∧
    (CheckCredentials.check_haveibeenpwned sha1Stub netErrStub "hunter2".toList = 0 ∧
     CheckCredentials.check_haveibeenpwned sha1Stub netCleanStub "hunter2".toList
       = CheckCredentials.check_haveibeenpwned sha1Stub netErrStub "hunter2".toList) :=
  ⟨rfl, rfl, C5_amended sha1Stub netErrStub netCleanStub "hunter2".toList rfl rfl⟩

/-- Claim C7, counterexample: the outbound URL is the fixed endpoint
followed by the five-character digest piece, and the fixed endpoint itself
contains the text "range" — so for the candidate "range" the candidate
does occur verbatim in the request URL, falsifying the claim's
"the candidate never occurs in the URL" clause (coincidentally, not as
transmitted candidate data). -/
theorem C7_counterexample :
    containsSub (CheckCredentials.requestUrl sha1Stub "range".toList) "range".toList :=
  ⟨"https://api.pwnedpasswords.com/".toList, "/AAAAA".toList, by decide⟩

/-- Claim C7 (amended): for every candidate whose digest satisfies the
hexdigest contract (40 lowercase hex characters), the outbound request URL
is exactly the fixed endpoint followed by the first five characters of the
uppercased digest; the URL depends on the candidate only through that
five-character piece (two candidates with equal digest pieces produce the
same URL); and the 35-character digest suffix never occurs in the URL.
The candidate itself occurs only when it coincides with a substring of
that fixed text (see the counterexample). -/
theorem C7_amended (sha1hex : List Char → List Char) (candidate : List Char)
    (hlen : (sha1hex candidate).length = 40)
    (hhex : ∀ ch ∈ sha1hex candidate, ch ∈ hexLowerChars) :
    CheckCredentials.requestUrl sha1hex candidate
      = CheckCredentials.HAVEIBEENPWNED_API
          ++ ((sha1hex candidate).map Char.toUpper).take 5 ∧
    (∀ c2 : List Char, (sha1hex c2).take 5 = (sha1hex candidate).take 5 →
      CheckCredentials.requestUrl sha1hex c2
        = CheckCredentials.requestUrl sha1hex candidate) ∧
    ¬ containsSub (CheckCredentials.requestUrl sha1hex candidate)
        (((sha1hex candidate).map Char.toUpper).drop 5) := by
  refine ⟨rfl, ?_, ?_⟩
  · intro c2 h
    unfold CheckCredentials.requestUrl
    rw [← List.map_take, ← List.map_take, h]
  · intro hc
    have hle := countP_le_of_containsSub (fun c => decide (c ∈ hexUpperChars)) hc
    have hcnt : (((sha1hex candidate).map Char.toUpper).drop 5).countP
        (fun c => decide (c ∈ hexUpperChars))
        = (((sha1hex candidate).map Char.toUpper).drop 5).length := by
      apply List.countP_eq_length.mpr
      intro ch hch
      have h1 : ch ∈ (sha1hex candidate).map Char.toUpper :=
        List.drop_subset _ _ hch
      obtain ⟨a, ha, rfl⟩ := List.mem_map.mp h1
      simpa using toUpper_mem_hexUpper (hhex a ha)
    have hsfxlen : (((sha1hex candidate).map Char.toUpper).drop 5).length = 35 := by
      simp [hlen]
    have hbase : (CheckCredentials.HAVEIBEENPWNED_API).countP
        (fun c => decide (c ∈ hexUpperChars)) = 0 := by decide
    have hpre : (((sha1hex candidate).map Char.toUpper).take 5).countP
        (fun c => decide (c ∈ hexUpperChars))
        ≤ (((sha1hex candidate).map Char.toUpper).take 5).length :=
      List.countP_le_length _
    have hprelen : (((sha1hex candidate).map Char.toUpper).take 5).length = 5 := by
      simp [hlen]
    unfold CheckCredentials.requestUrl at hle
    rw [List.countP_append] at hle
    omega

theorem C7_amended_witness :
    (sha1Stub "hunter2".toList).length = 40 ∧
    (∀ ch ∈ sha1Stub "hunter2".toList, ch ∈ hexLowerChars) ∧
    ¬ containsSub (CheckCredentials.requestUrl sha1Stub "hunter2".toList)
        (((sha1Stub "hunter2".toList).map Char.toUpper).drop 5) :=
  ⟨by decide, by decide,
   (C7_amended sha1Stub "hunter2".toList (by decide) (by decide)).2.2⟩

/-- Shared helper: every call to checkcredentials.rotate_credential returns
the TypeError failure dict and leaves the store untouched — the delegate
call on line 460 supplies one positional argument to the two-parameter
security.rotate_credential, so TypeError fires before the delegate body can
run and the except handler of lines 492-494 converts it into an error
result. -/
theorem rotate_credential_typeError (o : CheckCredentials.Oracles)
    (credential_type : List Char) (skip_verification : Bool)
    (st : CheckCredentials.Store) :
    CheckCredentials.rotate_credential o credential_type skip_verification st
      = ({ success := false, error := some (pyErrorMessage PyError.typeError),
           reachedEnvUpdate := false }, st) := by
  unfold CheckCredentials.rotate_credential CheckCredentials.rotateTry
  simp [CheckCredentials.verify_two_factor, bindRotateCredentialArgs]

/-- Claim C1: after any rotation attempt — in particular one that would end
rejected for weakness or breach exposure — the stored credential record for
the type is unchanged: fingerprint/masked value, expiration date,
last-rotated timestamp and rotation count all keep their pre-call values,
and the environment files are untouched.  In the code as written this holds
in the strongest possible form: the delegate call raises TypeError before
anything is persisted, so every attempt leaves the entire store equal to
its pre-call value. -/
theorem C1_rejection_preserves_record (o : CheckCredentials.Oracles)
    (credential_type : List Char) (skip_verification : Bool)
    (st : CheckCredentials.Store) :
    (CheckCredentials.rotate_credential o credential_type skip_verification st).2
      = st := by
  rw [rotate_credential_typeError]

/-- Claim C2: for every credential type and either value of
skip_verification, checkcredentials.rotate_credential returns a dict whose
"success" entry is False and never reaches the environment-file update: the
delegate call omits the required request_id parameter of the function
re-exported from security/modules/credentials.py, the TypeError is caught
by the surrounding try block, and an error result is returned. -/
theorem C2_rotation_always_fails (o : CheckCredentials.Oracles)
    (credential_type : List Char) (skip_verification : Bool)
    (st : CheckCredentials.Store) :
    (CheckCredentials.rotate_credential o credential_type skip_verification st).1.success
        = false ∧
    (CheckCredentials.rotate_credential o credential_type skip_verification st).1.reachedEnvUpdate
        = false := by
  rw [rotate_credential_typeError]
  exact ⟨rfl, rfl⟩

/-- Claim C10, counterexample: run two rotate("API_KEY") calls back to back
— the schedule in which the second caller blocks until the first completes,
one of the two behaviours the claim allows.  Neither call reaches the
accepted/persisted state: both return success = False (and the code
contains no RotationInProgress mechanism at all), so "exactly one reaches
accepted" is false. -/
theorem C10_counterexample :
    (CheckCredentials.rotate_credential oracleStub "API_KEY".toList false storeStub).1.success
        = false ∧
    (CheckCredentials.rotate_credential oracleStub "API_KEY".toList false
        (CheckCredentials.rotate_credential oracleStub "API_KEY".toList false storeStub).2).1.success
        = false := by
  constructor
  · decide
  · decide

/-- Claim C10 (amended): there is no per-type mutual exclusion and no
RotationInProgress error in the code, but the invariant is satisfied
degenerately: two rotate calls for the same type, run in either serial
order (and any interleaving, since neither call performs any store write),
both fail with success = False, neither reaches an accepted/persisted
state, and the store afterwards equals the store before — so in particular
no two interleaved writes to the store ever occur. -/
theorem C10_amended (o1 o2 : CheckCredentials.Oracles) (credential_type : List Char)
    (s1 s2 : Bool) (st : CheckCredentials.Store) :
    (CheckCredentials.rotate_credential o1 credential_type s1 st).1.success = false ∧
    (CheckCredentials.rotate_credential o2 credential_type s2
        (CheckCredentials.rotate_credential o1 credential_type s1 st).2).1.success = false ∧
    (CheckCredentials.rotate_credential o2 credential_type s2
        (CheckCredentials.rotate_credential o1 credential_type s1 st).2).2 = st := by
  simp [rotate_credential_typeError]

/-- Claim C3: if the live-store write inside update_environment_file fails
after the backup has been written (the backup write succeeded, the live
write raises, and the restore path's own read and write go through), then
for every pre-call store content and every set of rotated credentials that
reaches the write phase, the live store's content after the call equals its
content before the call. -/
theorem C3_backup_restores_live_store (sha1hex : List Char → List Char)
    (net : List Char → CheckCredentials.NetResult) (f : CheckCredentials.FsFaults)
    (rotated_credentials : List (List Char × List Char)) (env0 : List Char)
    (hpass : CheckCredentials.credsPass sha1hex net rotated_credentials = true)
    (hread : f.readMain = true)
    (hbackup : f.writeBackup.ok = true)
    (hlive : f.writeMain.ok = false)
    (hrr : f.readBackup = true)
    (hrw : f.writeRestore.ok = true) :
    (CheckCredentials.update_environment_file sha1hex net f rotated_credentials
        (some env0)).main = some env0 := by
  cases rotated_credentials with
  | nil =>
    simp [CheckCredentials.update_environment_file]
  | cons hd tl =>
    simp [CheckCredentials.update_environment_file, CheckCredentials.restoreFromBackup,
      hpass, hread, hbackup, hlive, hrr, hrw]

theorem C3_backup_restores_live_store_witness :
    CheckCredentials.credsPass sha1Stub netErrStub
        [("API_KEY".toList, "Xk7!Qw9@Zp4silver".toList)] = true ∧
    (CheckCredentials.update_environment_file sha1Stub netErrStub
        { readMain := true, writeBackup := { ok := true, junk := none },
          writeMain := { ok := false, junk := some [] }, readBackup := true,
          writeRestore := { ok := true, junk := none } }
        [("API_KEY".toList, "Xk7!Qw9@Zp4silver".toList)]
        (some "API_KEY=old".toList)).main = some "API_KEY=old".toList :=
  ⟨by decide,
   C3_backup_restores_live_store sha1Stub netErrStub
     { readMain := true, writeBackup := { ok := true, junk := none },
       writeMain := { ok := false, junk := some [] }, readBackup := true,
       writeRestore := { ok := true, junk := none } }
     [("API_KEY".toList, "Xk7!Qw9@Zp4silver".toList)] "API_KEY=old".toList
     (by decide) rfl rfl rfl rfl rfl⟩
